import Mathlib

/-!
Verification development for the shopifyapp backend rule engine and event
streaming pipeline (src/backend/rule_engine.py, src/backend/rule_schemas.py,
src/backend/rule_models.py, src/backend/event_streaming.py).

The Python code manipulates JSON-like dynamic values; we embed those as the
inductive type PyVal below.  Python floats are modelled as rationals (every
numeric literal appearing in the code and its payloads is decimal, and the
claims under verification concern comparisons, not rounding).  Python dicts
are modelled as association lists in insertion order.  Exceptions are
modelled with Except String.
-/

namespace Shopify

/-- Dynamic Python/JSON value domain used by the rule engine. -/
inductive PyVal where
  | none
  | bool (b : Bool)
  | int (n : Int)
  | float (q : Rat)
  | str (s : String)
  | list (xs : List PyVal)
  | dict (xs : List (String × PyVal))

/-- Fields of a Python dict (association list in insertion order). -/
abbrev Fields := List (String × PyVal)

/-- Python d.get(key, default) for a dict known to be a dict (first binding wins). -/
def pyGetD (d : Fields) (k : String) (dflt : PyVal) : PyVal :=
  match d.find? (fun p => p.1 == k) with
  | some p => p.2
  | Option.none => dflt

/-- Python key in d membership test on a dict. -/
def hasKey (d : Fields) (k : String) : Bool :=
  (d.find? (fun p => p.1 == k)).isSome

/-- Test whether a dynamic value is the given string (Python == against a str enum member). -/
def isStr (v : PyVal) (s : String) : Bool :=
  match v with
  | .str t => t == s
  | _ => false

/-- Python v.get(key, default) where v is an arbitrary value: raises AttributeError
unless v is a dict. -/
def getGetD (v : PyVal) (k : String) (dflt : PyVal) : Except String PyVal :=
  match v with
  | .dict xs => .ok (pyGetD xs k dflt)
  | _ => .error "AttributeError: object has no attribute get"

/-- Python iteration over a value: lists yield elements, strings yield
one-character strings, dicts yield their keys; other values raise TypeError. -/
def pyIter (v : PyVal) : Except String (List PyVal) :=
  match v with
  | .list xs => .ok xs
  | .str s => .ok (s.toList.map (fun c => .str (String.mk [c])))
  | .dict xs => .ok (xs.map (fun p => .str p.1))
  | _ => .error "TypeError: object is not iterable"

/-- Python set(v): iterate and require every element hashable (lists and dicts are not).
Sets are modelled as element lists; the code only tests intersection non-emptiness. -/
def pySet (v : PyVal) : Except String (List PyVal) := do
  let xs ← pyIter v
  if xs.all (fun x => match x with | .list _ => false | .dict _ => false | _ => true) then
    .ok xs
  else
    .error "TypeError: unhashable type"

/-- Numeric view of a value: Python bools are ints, ints embed into the numeric
tower shared with floats. -/
def asNum? (v : PyVal) : Option Rat :=
  match v with
  | .bool b => some (if b then 1 else 0)
  | .int n => some (n : Rat)
  | .float q => some q
  | _ => Option.none

mutual
/-- Python == on the embedded value domain: cross-type numeric equality,
structural equality elsewhere, False between distinct kinds (never raises). -/
def pyEq (a b : PyVal) : Bool :=
  match asNum? a, asNum? b with
  | some x, some y => x == y
  | _, _ =>
    match a, b with
    | .none, .none => true
    | .str s, .str t => s == t
    | .list xs, .list ys => pyEqList xs ys
    | .dict xs, .dict ys => pyEqPairs xs ys
    | _, _ => false

/-- Elementwise equality of Python lists. -/
def pyEqList : List PyVal → List PyVal → Bool
  | [], [] => true
  | x :: xs, y :: ys => pyEq x y && pyEqList xs ys
  | _, _ => false

/-- Equality of dicts, modelled on the insertion-order association lists. -/
def pyEqPairs : Fields → Fields → Bool
  | [], [] => true
  | (k, v) :: xs, (l, w) :: ys => k == l && pyEq v w && pyEqPairs xs ys
  | _, _ => false
end

mutual
/-- Python ordering comparison: numbers compare numerically, strings by code
points, lists lexicographically; any other pair raises TypeError. -/
def pyCmp (a b : PyVal) : Except String Ordering :=
  match asNum? a, asNum? b with
  | some x, some y => .ok (compare x y)
  | _, _ =>
    match a, b with
    | .str s, .str t => .ok (compare s t)
    | .list xs, .list ys => pyCmpList xs ys
    | _, _ => .error "TypeError: comparison not supported between instances"

/-- Lexicographic comparison of Python lists: skip leading pairs equal under ==,
then compare the first differing pair. -/
def pyCmpList : List PyVal → List PyVal → Except String Ordering
  | [], [] => .ok .eq
  | [], _ :: _ => .ok .lt
  | _ :: _, [] => .ok .gt
  | x :: xs, y :: ys => if pyEq x y then pyCmpList xs ys else pyCmp x y
end

/-- Python str() rendering, used by the contains and starts/ends-with operators.
Scalar renderings follow Python; container renderings are abbreviated (no claim
under verification applies a string operator to list or dict operands). -/
def pyToStr (v : PyVal) : String :=
  match v with
  | .none => "None"
  | .bool true => "True"
  | .bool false => "False"
  | .int n => toString n
  | .float q => toString q
  | .str s => s
  | .list _ => "<list>"
  | .dict _ => "<dict>"

/-- Check whether the second character list starts with the first. -/
def charsStartMatch : List Char → List Char → Bool
  | [], _ => true
  | _ :: _, [] => false
  | a :: as, b :: bs => a == b && charsStartMatch as bs

/-- Substring containment on character lists (Python needle in haystack). -/
def charsHasSub (needle : List Char) : List Char → Bool
  | [] => needle.isEmpty
  | b :: bs => charsStartMatch needle (b :: bs) || charsHasSub needle bs

/-- Lower-cased character list of a string. -/
def lowChars (s : String) : List Char :=
  s.toList.map Char.toLower

/-- Python membership of a value in a list or set, using Python equality. -/
def pyMem (x : PyVal) (xs : List PyVal) : Bool :=
  xs.any (fun y => pyEq x y)

/-- Body of RuleEngine compare underscore values before the enclosing
try/except: each operator branch may raise through the underlying Python
comparison. Mirrors rule engine lines 364-394. -/
def compare_values_core (actual : PyVal) (op : PyVal) (expected : PyVal) : Except String Bool :=
  if isStr op "equals" then .ok (pyEq actual expected)
  else if isStr op "not_equals" then .ok (!pyEq actual expected)
  else if isStr op "greater_than" then do
    let o ← pyCmp actual expected
    .ok (o == .gt)
  else if isStr op "greater_than_or_equal" then do
    let o ← pyCmp actual expected
    .ok (o != .lt)
  else if isStr op "less_than" then do
    let o ← pyCmp actual expected
    .ok (o == .lt)
  else if isStr op "less_than_or_equal" then do
    let o ← pyCmp actual expected
    .ok (o != .gt)
  else if isStr op "contains" then
    .ok (charsHasSub (lowChars (pyToStr expected)) (lowChars (pyToStr actual)))
  else if isStr op "not_contains" then
    .ok (!charsHasSub (lowChars (pyToStr expected)) (lowChars (pyToStr actual)))
  else if isStr op "in" then
    .ok (match expected with
         | .list ys => pyMem actual ys
         | _ => false)
  else if isStr op "not_in" then
    .ok (match expected with
         | .list ys => !pyMem actual ys
         | _ => true)
  else if isStr op "starts_with" then
    .ok (charsStartMatch (lowChars (pyToStr expected)) (lowChars (pyToStr actual)))
  else if isStr op "ends_with" then
    .ok (charsStartMatch (lowChars (pyToStr expected)).reverse (lowChars (pyToStr actual)).reverse)
  else .ok false

/-- RuleEngine comparison utility: the whole operator dispatch runs inside a
try/except returning False on any exception. -/
def compare_values (actual : PyVal) (op : PyVal) (expected : PyVal) : Bool :=
  match compare_values_core actual op expected with
  | .ok b => b
  | .error _ => false

/-- Digit-only test for a character list. -/
def allDigits (cs : List Char) : Bool :=
  cs.all Char.isDigit

/-- Numeric value of a digit list. -/
def digitsToNat (cs : List Char) : Nat :=
  cs.foldl (fun a c => a * 10 + (c.toNat - 48)) 0

/-- Parse an unsigned decimal literal (digits with an optional fractional part).
Exponent, inf and nan forms accepted by Python are omitted; no payload under
verification uses them. -/
def parseUnsignedRat (cs : List Char) : Option Rat :=
  let ip := cs.takeWhile (fun c => c != '.')
  let rest := cs.dropWhile (fun c => c != '.')
  match rest with
  | [] =>
    if !ip.isEmpty && allDigits ip then some ((digitsToNat ip : Int) : Rat) else Option.none
  | _ :: fp =>
    if (!ip.isEmpty || !fp.isEmpty) && allDigits ip && allDigits fp then
      some (((digitsToNat ip : Int) : Rat) + ((digitsToNat fp : Int) : Rat) / ((10 : Rat) ^ fp.length))
    else Option.none

/-- Parse a Python float literal: optional surrounding spaces, optional sign,
then an unsigned decimal literal. -/
def parseFloatStr (s : String) : Option Rat :=
  let cs := (s.toList.dropWhile (fun c => c == ' ')).reverse.dropWhile (fun c => c == ' ') |>.reverse
  match cs with
  | '+' :: rest => parseUnsignedRat rest
  | '-' :: rest => (parseUnsignedRat rest).map (fun q => -q)
  | _ => parseUnsignedRat cs

/-- Python float(v): numbers convert, strings parse as decimal literals or
raise ValueError, anything else raises TypeError. -/
def pyFloat (v : PyVal) : Except String Rat :=
  match v with
  | .float q => .ok q
  | .int n => .ok (n : Rat)
  | .bool b => .ok (if b then 1 else 0)
  | .str s =>
    match parseFloatStr s with
    | some q => .ok q
    | Option.none => .error ("ValueError: could not convert string to float: " ++ s)
  | _ => .error "TypeError: float() argument must be a string or a real number"

/-- Condition tree. A condition in the code is a JSON dict; the list stored
under its conditions key (the sub-conditions of a logical node, empty when the
key is absent) is split out as children, and every other binding is kept
verbatim in fields. -/
inductive Cond where
  | node (fields : Fields) (children : List Cond)

/-- Event context: the event underscore data dict passed to process event. -/
abbrev Ctx := Fields

/-- RuleEngine evaluate order total (lines 216-222): read order.total_price
defaulting to 0, convert both sides with float() (which may raise), then
compare. -/
def evaluate_order_total (fields : Fields) (ev : Ctx) : Except String Bool := do
  let order := pyGetD ev "order" (.dict [])
  let total ← getGetD order "total_price" (.int 0)
  let op := pyGetD fields "operator" .none
  let v := pyGetD fields "value" (.int 0)
  let ft ← pyFloat total
  let fv ← pyFloat v
  .ok (compare_values (.float ft) op (.float fv))

/-- Python accumulation x + y inside sum(): the accumulator is numeric, the
addend must be numeric or the addition raises TypeError. -/
def pyAddNum (acc : PyVal) (v : PyVal) : Except String PyVal :=
  match acc, asNum? v with
  | .int a, some _ =>
    (match v with
     | .float q => .ok (.float ((a : Rat) + q))
     | .bool b => .ok (.int (a + (if b then 1 else 0)))
     | .int m => .ok (.int (a + m))
     | _ => .error "TypeError: unsupported operand type for +")
  | .float a, some q => .ok (.float (a + q))
  | _, _ => .error "TypeError: unsupported operand type for +"

/-- Python sum(item.get("quantity", 0) for item in items) starting from 0. -/
def sumQuantities (items : List PyVal) : Except String PyVal :=
  items.foldlM (fun acc item => do
    let q ← getGetD item "quantity" (.int 0)
    pyAddNum acc q) (.int 0)

/-- RuleEngine evaluate order item count (lines 224-231). -/
def evaluate_order_item_count (fields : Fields) (ev : Ctx) : Except String Bool := do
  let order := pyGetD ev "order" (.dict [])
  let lineItemsV ← getGetD order "line_items" (.list [])
  let items ← pyIter lineItemsV
  let cnt ← sumQuantities items
  let op := pyGetD fields "operator" .none
  let v := pyGetD fields "value" (.int 0)
  .ok (compare_values cnt op v)

/-- Non-empty intersection of two Python sets modelled as lists. -/
def interNonempty (xs ys : List PyVal) : Bool :=
  xs.any (fun x => pyMem x ys)

/-- Collect str(product.get("id", "")) and the elements of
product.get("tags", []) over the line items (rule engine lines 241-247). -/
def collectProducts (items : List PyVal) : Except String (List PyVal × List PyVal) :=
  items.foldlM (fun acc item => do
    let product ← getGetD item "product" (.dict [])
    let idv ← getGetD product "id" (.str "")
    let tagsV ← getGetD product "tags" (.list [])
    let tags ← pySet tagsV
    .ok (acc.1 ++ [PyVal.str (pyToStr idv)], acc.2 ++ tags)) ([], [])

/-- RuleEngine evaluate product (lines 233-261). -/
def evaluate_product (fields : Fields) (ev : Ctx) : Except String Bool := do
  let order := pyGetD ev "order" (.dict [])
  let lineItemsV ← getGetD order "line_items" (.list [])
  let op := pyGetD fields "operator" .none
  let product_ids ← pySet (pyGetD fields "product_ids" (.list []))
  let product_tags ← pySet (pyGetD fields "product_tags" (.list []))
  let items ← pyIter lineItemsV
  let collected ← collectProducts items
  let order_ids := collected.1
  let order_tags := collected.2
  if !product_ids.isEmpty then
    if isStr op "in" then .ok (interNonempty product_ids order_ids)
    else if isStr op "not_in" then .ok (!interNonempty product_ids order_ids)
    else if !product_tags.isEmpty then
      if isStr op "contains" then .ok (interNonempty product_tags order_tags)
      else if isStr op "not_contains" then .ok (!interNonempty product_tags order_tags)
      else .ok false
    else .ok false
  else if !product_tags.isEmpty then
    if isStr op "contains" then .ok (interNonempty product_tags order_tags)
    else if isStr op "not_contains" then .ok (!interNonempty product_tags order_tags)
    else .ok false
  else .ok false

/-- Python customer.get(field) where field is an arbitrary condition value:
customer must be a dict, an unhashable field raises TypeError, a non-string
field never matches the string keys, a string field looks up with default None. -/
def customerGet (customer : PyVal) (fieldv : PyVal) : Except String PyVal :=
  match customer with
  | .dict xs =>
    match fieldv with
    | .list _ => .error "TypeError: unhashable type"
    | .dict _ => .error "TypeError: unhashable type"
    | .str s => .ok (pyGetD xs s .none)
    | _ => .ok .none
  | _ => .error "AttributeError: object has no attribute get"

/-- RuleEngine evaluate customer (lines 263-275): a missing field gives None
and the condition evaluates to False without comparing. -/
def evaluate_customer (fields : Fields) (ev : Ctx) : Except String Bool := do
  let customer := pyGetD ev "customer" (.dict [])
  let fieldv := pyGetD fields "field" .none
  let op := pyGetD fields "operator" .none
  let v := pyGetD fields "value" .none
  let cv ← customerGet customer fieldv
  match cv with
  | .none => .ok false
  | _ => .ok (compare_values cv op v)

/-- RuleEngine evaluate single condition (lines 191-200): dispatch on the type
field; date, date_range, metafield, tier, points and frequency are placeholder
evaluators returning True in the source (lines 277-305); an unknown type logs a
warning and returns False. -/
def evaluate_single_condition (fields : Fields) (ev : Ctx) : Except String Bool :=
  let t := pyGetD fields "type" .none
  if isStr t "order_total" then evaluate_order_total fields ev
  else if isStr t "order_item_count" then evaluate_order_item_count fields ev
  else if isStr t "product" then evaluate_product fields ev
  else if isStr t "customer" then evaluate_customer fields ev
  else if isStr t "date" then .ok true
  else if isStr t "date_range" then .ok true
  else if isStr t "metafield" then .ok true
  else if isStr t "tier" then .ok true
  else if isStr t "points" then .ok true
  else if isStr t "frequency" then .ok true
  else .ok false

mutual
/-- RuleEngine evaluate conditions (lines 158-165): a dict containing an
operator key is routed to the logical evaluator, otherwise to the single
condition dispatch.  Logical evaluation (lines 167-189) inlined: AND
short-circuits on the first false child, OR on the first true child, NOT
negates its first child and is False without children; any other operator
value gives False. -/
def evaluate_conditions (c : Cond) (ev : Ctx) : Except String Bool :=
  match c with
  | .node fields children =>
    if hasKey fields "operator" then
      let op := pyGetD fields "operator" .none
      if isStr op "and" then evalAndList children ev
      else if isStr op "or" then evalOrList children ev
      else if isStr op "not" then
        match children with
        | [] => .ok false
        | c0 :: _ => do
          let b ← evaluate_conditions c0 ev
          .ok (!b)
      else .ok false
    else evaluate_single_condition fields ev

/-- AND loop of evaluate logical condition: return False at the first false
child, True when the children are exhausted (empty children give True). -/
def evalAndList (cs : List Cond) (ev : Ctx) : Except String Bool :=
  match cs with
  | [] => .ok true
  | c :: rest => do
    let b ← evaluate_conditions c ev
    if b then evalAndList rest ev else .ok false

/-- OR loop of evaluate logical condition: return True at the first true
child, False when the children are exhausted (empty children give False). -/
def evalOrList (cs : List Cond) (ev : Ctx) : Except String Bool :=
  match cs with
  | [] => .ok false
  | c :: rest => do
    let b ← evaluate_conditions c ev
    if b then .ok true else evalOrList rest ev
end

/-- RuleEngine execute points action (lines 311-328): reads the customer id
(raising if the customer value is not a dict) and returns a result dict. -/
def execute_points_action (action : Fields) (ev : Ctx) : Except String PyVal := do
  let customer := pyGetD ev "customer" (.dict [])
  let customer_id ← getGetD customer "id" .none
  let operation := pyGetD action "operation" (.str "add")
  let amount := pyGetD action "amount" (.int 0)
  let reason := pyGetD action "reason" (.str "Rule-based points adjustment")
  .ok (.dict [("type", .str "points"), ("operation", operation), ("amount", amount),
              ("customer_id", customer_id), ("reason", reason), ("success", .bool true)])

/-- RuleEngine execute action (lines 202-210): dispatch on the type field over
the registered executors; an unknown action type raises ValueError.  The tier,
badge, webhook, email, discount and tag executors are stubs in the source
(lines 330-358) returning a fixed success dict. -/
def execute_action (action : Fields) (ev : Ctx) : Except String PyVal :=
  let t := pyGetD action "type" .none
  if isStr t "points" then execute_points_action action ev
  else if isStr t "tier" then .ok (.dict [("type", .str "tier"), ("success", .bool true)])
  else if isStr t "badge" then .ok (.dict [("type", .str "badge"), ("success", .bool true)])
  else if isStr t "webhook" then .ok (.dict [("type", .str "webhook"), ("success", .bool true)])
  else if isStr t "email" then .ok (.dict [("type", .str "email"), ("success", .bool true)])
  else if isStr t "discount" then .ok (.dict [("type", .str "discount"), ("success", .bool true)])
  else if isStr t "tag" then .ok (.dict [("type", .str "tag"), ("success", .bool true)])
  else .error ("Unknown action type: " ++ pyToStr t)

/-- Rule status enumeration from rule_models.RuleStatus. -/
inductive RuleStatus where
  | draft
  | active
  | paused
  | archived
deriving DecidableEq, Repr

/-- Persisted rule row (rule_models.Rule), restricted to the columns the rule
engine and manager read.  Database audit columns (execution count, timestamps
of execution) are advisory telemetry and are not modelled. -/
structure Rule where
  id : String
  shop_domain : String
  name : String
  event_type : String
  status : RuleStatus
  priority : Int
  created_at : Nat
  conditions : Cond
  actions : List Fields

/-- Result dict built by process rule and by the per-rule error handler of
process event.  The error handler omits the rule name and conditions-met keys,
modelled with Option. -/
structure RuleResult where
  rule_id : String
  rule_name : Option String
  conditions_met : Option Bool
  actions_executed : List PyVal
  success : Bool
  error : Option String

/-- Action loop of process rule (lines 131-139): execute in declared order,
append each result, stop at the first raising action recording its message.
Returns the executed results and the error message of the failing action. -/
def runActions (actions : List Fields) (ev : Ctx) : List PyVal × Option String :=
  match actions with
  | [] => ([], Option.none)
  | a :: rest =>
    match execute_action a ev with
    | .ok r =>
      let (rs, e) := runActions rest ev
      (r :: rs, e)
    | .error msg => ([], some msg)

/-- RuleEngine process rule (lines 118-156): evaluate the conditions (a raise
propagates to the caller), then execute the actions when they are met;
success is False exactly when an action failed.  Wall-clock timing and the
execution-count update are not modelled. -/
def process_rule (rule : Rule) (ev : Ctx) : Except String RuleResult := do
  let met ← evaluate_conditions rule.conditions ev
  let (acts, err) := if met then runActions rule.actions ev else ([], Option.none)
  .ok { rule_id := rule.id, rule_name := some rule.name, conditions_met := some met,
        actions_executed := acts, success := err.isNone, error := err }

/-- Error result dict appended by the per-rule except handler of process event
(lines 85-94). -/
def errorResult (ruleId : String) (msg : String) : RuleResult :=
  { rule_id := ruleId, rule_name := Option.none, conditions_met := Option.none,
    actions_executed := [], success := false, error := some msg }

/-- RuleEngine process event (lines 56-103) after the rules are loaded: each
rule is processed inside its own try/except, a raise is recorded as an error
result and the loop continues with the next rule.  The audit insert performed
by log execution is database I/O and is not modelled. -/
def process_event (rules : List Rule) (ev : Ctx) : List RuleResult :=
  rules.map (fun rule =>
    match process_rule rule ev with
    | .ok r => r
    | .error msg => errorResult rule.id msg)

/-- Ascending lexicographic order on (priority, created At) used by the rule
loading query. -/
def ruleLE (a b : Rule) : Bool :=
  a.priority < b.priority || (a.priority == b.priority && a.created_at ≤ b.created_at)

/-- RuleEngine load active rules (lines 105-116): filter the store on shop
domain, event type and active status, then order ascending by priority and
creation time.  The SQL query is modelled as a pure function over the list of
persisted rows. -/
def load_active_rules (store : List Rule) (shop : String) (eventType : String) : List Rule :=
  (store.filter (fun r =>
    r.shop_domain == shop && r.event_type == eventType && r.status == RuleStatus.active)).mergeSort
    ruleLE

/-- Raw rule definition document handed to RuleManager.validate_rule.  Absent
keys are None; condition and action documents whose shape validation is not
exercised by the claims are represented post-parse. -/
structure RuleInput where
  name : Option String
  event_type : Option String
  priority : Option Int
  conditions : Option Cond
  actions : Option (List Fields)

/-- Parsed rule schema (rule_schemas.RuleSchema). -/
structure RuleSchemaParsed where
  name : String
  event_type : String
  priority : Int
  conditions : Cond
  actions : List Fields

/-- Pydantic initialisation of rule_schemas.RuleSchema (lines 219-234): name is
required with length in [1,255], event type and conditions and actions are
required, and priority carries the field constraints ge=1 and le=1000 with
default 100 — a priority outside that range raises a validation error here,
before the warning branch of validate_rule can run. -/
def ruleSchemaInit (d : RuleInput) : Except String RuleSchemaParsed :=
  match d.name with
  | Option.none => .error "name: Field required"
  | some nm =>
    if nm.length < 1 then .error "name: String should have at least 1 character"
    else if nm.length > 255 then .error "name: String should have at most 255 characters"
    else
      match d.event_type with
      | Option.none => .error "event_type: Field required"
      | some et =>
        let p := d.priority.getD 100
        if p < 1 then .error "priority: Input should be greater than or equal to 1"
        else if p > 1000 then .error "priority: Input should be less than or equal to 1000"
        else
          match d.conditions with
          | Option.none => .error "conditions: Field required"
          | some c =>
            match d.actions with
            | Option.none => .error "actions: Field required"
            | some acts => .ok ⟨nm, et, p, c, acts⟩

/-- Result of rule validation (rule_schemas.RuleValidationResult). -/
structure RuleValidationResult where
  valid : Bool
  errors : List String
  warnings : List String

/-- RuleManager validate rule (lines 529-558): pydantic schema validation
inside a try/except whose failure becomes a schema-validation error; then the
business checks append a warning for an out-of-range priority and a hard error
for an empty action list; validity is the absence of errors.  The helper
validators for conditions and actions are pass statements in the source. -/
def validate_rule (d : RuleInput) : RuleValidationResult :=
  match ruleSchemaInit d with
  | .error e =>
    { valid := false, errors := ["Schema validation error: " ++ e], warnings := [] }
  | .ok s =>
    let warnings := if s.priority < 1 || s.priority > 1000
                    then ["Priority should be between 1 and 1000"] else []
    let errors := if s.actions.isEmpty then ["Rule must have at least one action"] else []
    { valid := errors.isEmpty, errors := errors, warnings := warnings }

/-- RuleManager create rule (lines 424-452): validation gate, then a new row
whose status is draft. -/
def create_rule (shop : String) (d : RuleInput) (newId : String) (now : Nat) :
    Except String Rule :=
  match ruleSchemaInit d with
  | .error e => .error ("Invalid rule: Schema validation error: " ++ e)
  | .ok s =>
    if s.actions.isEmpty then .error "Invalid rule: Rule must have at least one action"
    else .ok { id := newId, shop_domain := shop, name := s.name, event_type := s.event_type,
               status := RuleStatus.draft, priority := s.priority, created_at := now,
               conditions := s.conditions, actions := s.actions }

/-- RuleManager update rule (lines 454-481): validation gate, then the content
columns are overwritten; the status column is not among them. -/
def update_rule (r : Rule) (d : RuleInput) : Except String Rule :=
  match ruleSchemaInit d with
  | .error e => .error ("Invalid rule: Schema validation error: " ++ e)
  | .ok s =>
    if s.actions.isEmpty then .error "Invalid rule: Rule must have at least one action"
    else .ok { r with
               name := s.name
               event_type := s.event_type
               priority := s.priority
               conditions := s.conditions
               actions := s.actions }

/-- RuleManager activate rule (lines 483-491): sets status to active with no
guard on the current status. -/
def activate_rule (r : Rule) : Rule :=
  { r with status := RuleStatus.active }

/-- RuleManager deactivate rule (lines 493-501): sets status to paused with no
guard on the current status. -/
def deactivate_rule (r : Rule) : Rule :=
  { r with status := RuleStatus.paused }

/-- RuleManager delete rule (lines 503-511): soft delete, a transition to the
archived status returning True; the row is never removed. -/
def delete_rule (r : Rule) : Rule × Bool :=
  ({ r with status := RuleStatus.archived }, true)

/-- Loyalty event carried on the stream (event_streaming.LoyaltyEvent),
restricted to the fields the retry logic reads.  The stream id is attached by
the consumer loop. -/
structure LoyaltyEvent where
  event_id : String
  retry_count : Nat := 0
  max_retries : Nat := 3
  stream_id : String

/-- EventProcessor retry event (lines 290-301): increment the retry count and
schedule a delayed re-submission with delay min(300, 2 ^ new count) seconds. -/
def retry_event (e : LoyaltyEvent) : LoyaltyEvent × Nat :=
  let e2 := { e with retry_count := e.retry_count + 1 }
  (e2, min 300 (2 ^ e2.retry_count))

/-- Celery countdown of deliver webhook task (lines 362-385): on a delivery
exception the retry is scheduled after min(300, 2 ^ retries * 60) seconds. -/
def webhook_retry_countdown (retries : Nat) : Nat :=
  min 300 (2 ^ retries * 60)

/-- One iteration of EventProcessor process event batch (lines 247-265) for
one event: on success acknowledge (removing the stream id from the pending
set); on a raise, either schedule a retry when the retry count is below max
retries (the entry stays pending), or log a terminal failure and acknowledge
anyway.  Returns the new pending set, the scheduled retry if any, and the
terminally failed event ids logged. -/
def process_one_event (outcome : Except String Unit) (e : LoyaltyEvent)
    (pending : List String) : List String × Option (LoyaltyEvent × Nat) × List String :=
  match outcome with
  | .ok _ => (pending.erase e.stream_id, Option.none, [])
  | .error _ =>
    if e.retry_count < e.max_retries then (pending, some (retry_event e), [])
    else (pending.erase e.stream_id, Option.none, [e.event_id])

/-- EventProcessor process event batch over a batch: fold the per-event step,
accumulating scheduled retries and terminal failures. -/
def process_event_batch (outcome : LoyaltyEvent → Except String Unit)
    (events : List LoyaltyEvent) (pending : List String) :
    List String × List (LoyaltyEvent × Nat) × List String :=
  events.foldl (fun st e =>
    let (p, r, t) := process_one_event (outcome e) e st.1
    (p, st.2.1 ++ r.toList, st.2.2 ++ t)) (pending, [], [])

end Shopify

-- ============================================================================
-- Helper lemmas
-- ============================================================================

namespace Shopify

/-- Finding a string value under a key implies the key is present. -/
theorem hasKey_of_pyGetD_str (fields : Fields) (k s : String)
    (h : pyGetD fields k .none = .str s) : hasKey fields k = true := by
  unfold pyGetD at h
  unfold hasKey
  cases hf : fields.find? (fun p => p.1 == k) with
  | none => rw [hf] at h; exact absurd h (by simp)
  | some p => simp [hf]

/-- The AND loop returns false at the first false child, whatever follows it. -/
theorem evalAndList_append_false (ev : Ctx) (tpre : List Cond) (c : Cond) (cs : List Cond)
    (htrue : ∀ c0 ∈ tpre, evaluate_conditions c0 ev = .ok true)
    (hc : evaluate_conditions c ev = .ok false) :
    evalAndList (tpre ++ c :: cs) ev = .ok false := by
  induction tpre with
  | nil => simp [evalAndList, hc, Bind.bind, Except.bind]
  | cons a tl ih =>
    have ha := htrue a (by simp)
    simp only [List.cons_append, evalAndList, ha, Bind.bind, Except.bind]
    exact ih (fun c0 hc0 => htrue c0 (by simp [hc0]))

/-- The OR loop returns true at the first true child, whatever follows it. -/
theorem evalOrList_append_true (ev : Ctx) (fpre : List Cond) (c : Cond) (cs : List Cond)
    (hfalse : ∀ c0 ∈ fpre, evaluate_conditions c0 ev = .ok false)
    (hc : evaluate_conditions c ev = .ok true) :
    evalOrList (fpre ++ c :: cs) ev = .ok true := by
  induction fpre with
  | nil => simp [evalOrList, hc, Bind.bind, Except.bind]
  | cons a tl ih =>
    have ha := hfalse a (by simp)
    simp only [List.cons_append, evalOrList, ha, Bind.bind, Except.bind]
    exact ih (fun c0 hc0 => hfalse c0 (by simp [hc0]))

end Shopify

-- ============================================================================
-- C3: logical-node semantics
-- ============================================================================

namespace Shopify

/-- C3: for every event context, a logical AND node with an empty children
list evaluates to true, an OR node with empty children to false, and a NOT
node without a child to false; AND yields false as soon as one child
evaluates false and OR yields true as soon as one child evaluates true, the
remaining children being irrelevant. -/
theorem c3_logical_node_semantics (ev : Ctx) :
    (∀ fields : Fields, pyGetD fields "operator" .none = .str "and" →
        evaluate_conditions (.node fields []) ev = .ok true) ∧
    (∀ fields : Fields, pyGetD fields "operator" .none = .str "or" →
        evaluate_conditions (.node fields []) ev = .ok false) ∧
    (∀ fields : Fields, pyGetD fields "operator" .none = .str "not" →
        evaluate_conditions (.node fields []) ev = .ok false) ∧
    (∀ (fields : Fields) (tpre : List Cond) (c : Cond) (cs : List Cond),
        pyGetD fields "operator" .none = .str "and" →
        (∀ c0 ∈ tpre, evaluate_conditions c0 ev = .ok true) →
        evaluate_conditions c ev = .ok false →
        evaluate_conditions (.node fields (tpre ++ c :: cs)) ev = .ok false) ∧
    (∀ (fields : Fields) (fpre : List Cond) (c : Cond) (cs : List Cond),
        pyGetD fields "operator" .none = .str "or" →
        (∀ c0 ∈ fpre, evaluate_conditions c0 ev = .ok false) →
        evaluate_conditions c ev = .ok true →
        evaluate_conditions (.node fields (fpre ++ c :: cs)) ev = .ok true) := by
  refine ⟨?_, ?_, ?_, ?_, ?_⟩
  · intro fields h
    have hk := hasKey_of_pyGetD_str fields "operator" "and" h
    simp [evaluate_conditions, hk, h, isStr, evalAndList]
  · intro fields h
    have hk := hasKey_of_pyGetD_str fields "operator" "or" h
    simp [evaluate_conditions, hk, h, isStr, evalOrList]
  · intro fields h
    have hk := hasKey_of_pyGetD_str fields "operator" "not" h
    simp [evaluate_conditions, hk, h, isStr]
  · intro fields tpre c cs h htrue hc
    have hk := hasKey_of_pyGetD_str fields "operator" "and" h
    have hrest := evalAndList_append_false ev tpre c cs htrue hc
    obtain ⟨d, ds, hd⟩ : ∃ d ds, tpre ++ c :: cs = d :: ds := by
      cases tpre <;> exact ⟨_, _, rfl⟩
    rw [hd] at hrest ⊢
    simp [evaluate_conditions, hk, h, isStr, hrest]
  · intro fields fpre c cs h hfalse hc
    have hk := hasKey_of_pyGetD_str fields "operator" "or" h
    have hrest := evalOrList_append_true ev fpre c cs hfalse hc
    obtain ⟨d, ds, hd⟩ : ∃ d ds, fpre ++ c :: cs = d :: ds := by
      cases fpre <;> exact ⟨_, _, rfl⟩
    rw [hd] at hrest ⊢
    simp [evaluate_conditions, hk, h, isStr, hrest]

/-- Witness for C3 at concrete inputs: an AND node over a true child followed
by a false child and an untouched tail evaluates to false. -/
theorem c3_witness :
    evaluate_conditions
      (.node [("operator", PyVal.str "and")]
        ([Cond.node [("operator", PyVal.str "and")] []] ++
          Cond.node [("operator", PyVal.str "or")] [] ::
            [Cond.node [("type", PyVal.str "date")] []])) [] = .ok false :=
  (c3_logical_node_semantics []).2.2.2.1 [("operator", PyVal.str "and")]
    [Cond.node [("operator", PyVal.str "and")] []]
    (Cond.node [("operator", PyVal.str "or")] [])
    [Cond.node [("type", PyVal.str "date")] []]
    rfl (by intro c0 hc0; simp at hc0; subst hc0; rfl) rfl

end Shopify

-- ============================================================================
-- C4: leaf evaluation totality (corrected)
-- ============================================================================

namespace Shopify

/-- Counterexample to C4: leaf evaluation is not total and a missing field
does not always give false.  With the order total leaf and a non-numeric
total price string the float() conversion raises a ValueError that escapes
the evaluator, and the placeholder date leaf evaluates to true on an empty
event context even though its referenced field is missing. -/
theorem c4_counterexample :
    evaluate_single_condition
      [("type", PyVal.str "order_total"), ("operator", PyVal.str "equals"), ("value", PyVal.int 0)]
      [("order", PyVal.dict [("total_price", PyVal.str "abc")])] =
      .error "ValueError: could not convert string to float: abc" ∧
    evaluate_single_condition [("type", PyVal.str "date"), ("field", PyVal.str "order_date")] [] =
      .ok true :=
  ⟨rfl, rfl⟩

/-- C4 amended: the customer leaf evaluates to false when the referenced field
is missing, an unknown leaf kind evaluates to false, and the comparison
utility returns false (rather than raising) on type-mismatched ordered
comparisons; however leaf evaluation is not total: the order total leaf
raises when the totals field holds a non-numeric string, and the placeholder
leaf kinds (date among them) evaluate to true even when the referenced field
is missing from the event context. -/
theorem c4_amended (ev : Ctx) :
    (∀ (fields : Fields) (cust : Fields) (f : String),
        pyGetD ev "customer" (.dict []) = .dict cust →
        pyGetD fields "field" .none = .str f →
        pyGetD cust f .none = .none →
        evaluate_customer fields ev = .ok false) ∧
    (∀ (s : String) (n : Int),
        compare_values (.str s) (.str "greater_than") (.int n) = false ∧
        compare_values (.int n) (.str "less_than") (.str s) = false) ∧
    (∀ (fields : Fields) (t : PyVal),
        pyGetD fields "type" .none = t →
        (isStr t "order_total" || isStr t "order_item_count" || isStr t "product" ||
         isStr t "customer" || isStr t "date" || isStr t "date_range" || isStr t "metafield" ||
         isStr t "tier" || isStr t "points" || isStr t "frequency") = false →
        evaluate_single_condition fields ev = .ok false) ∧
    (∀ fields : Fields, pyGetD fields "type" .none = .str "date" →
        evaluate_single_condition fields ev = .ok true) ∧
    (∀ (fields : Fields) (ord : Fields) (s : String),
        pyGetD fields "type" .none = .str "order_total" →
        pyGetD ev "order" (.dict []) = .dict ord →
        pyGetD ord "total_price" (.int 0) = .str s →
        parseFloatStr s = Option.none →
        evaluate_single_condition fields ev =
          .error ("ValueError: could not convert string to float: " ++ s)) := by
  refine ⟨?_, ?_, ?_, ?_, ?_⟩
  · intro fields cust f h1 h2 h3
    simp [evaluate_customer, h1, h2, h3, customerGet, Bind.bind, Except.bind]
  · intro s n
    constructor <;>
      simp [compare_values, compare_values_core, isStr, pyCmp, asNum?, Bind.bind, Except.bind]
  · intro fields t h1 h2
    simp only [Bool.or_eq_false_iff] at h2
    obtain ⟨⟨⟨⟨⟨⟨⟨⟨⟨h3, h4⟩, h5⟩, h6⟩, h7⟩, h8⟩, h9⟩, h10⟩, h11⟩, h12⟩ := h2
    simp [evaluate_single_condition, h1, h3, h4, h5, h6, h7, h8, h9, h10, h11, h12]
  · intro fields h1
    simp [evaluate_single_condition, h1, isStr]
  · intro fields ord s h1 h2 h3 h4
    simp [evaluate_single_condition, h1, isStr, evaluate_order_total, h2, h3, getGetD,
      pyFloat, h4, Bind.bind, Except.bind]

/-- Witness for C4 amended at concrete inputs: a customer leaf whose
referenced field is absent evaluates to false, and a string ordered against
an int compares false instead of raising. -/
theorem c4_witness :
    evaluate_customer [("type", PyVal.str "customer"), ("field", PyVal.str "tags"),
        ("operator", PyVal.str "equals"), ("value", PyVal.str "vip")]
      [("customer", PyVal.dict [("id", PyVal.str "c1")])] = .ok false ∧
    compare_values (.str "string") (.str "greater_than") (.int 10) = false :=
  ⟨(c4_amended [("customer", PyVal.dict [("id", PyVal.str "c1")])]).1
      [("type", PyVal.str "customer"), ("field", PyVal.str "tags"),
        ("operator", PyVal.str "equals"), ("value", PyVal.str "vip")]
      [("id", PyVal.str "c1")] "tags" rfl rfl rfl,
    ((c4_amended []).2.1 "string" 10).1⟩

end Shopify

-- ============================================================================
-- C1, C2, C10: rule processing
-- ============================================================================

namespace Shopify

/-- Execute a list of actions, failing at the first raising action (the
reference behaviour of the successful prefix of the action loop). -/
def execAll (actions : List Fields) (ev : Ctx) : Except String (List PyVal) :=
  match actions with
  | [] => .ok []
  | a :: rest => do
    let r ← execute_action a ev
    let rs ← execAll rest ev
    .ok (r :: rs)

/-- The action loop on a list whose first raising action follows a succeeding
prefix records exactly the results of that prefix together with the failing
message, whatever actions follow the failure. -/
theorem runActions_append_error (ev : Ctx) (pre : List Fields) (results : List PyVal)
    (bad : Fields) (rest : List Fields) (msg : String)
    (hpre : execAll pre ev = .ok results) (hbad : execute_action bad ev = .error msg) :
    runActions (pre ++ bad :: rest) ev = (results, some msg) := by
  induction pre generalizing results with
  | nil =>
    simp only [execAll] at hpre
    cases hpre
    simp [runActions, hbad]
  | cons a tl ih =>
    simp only [execAll, Bind.bind, Except.bind] at hpre
    cases ha : execute_action a ev with
    | error e => rw [ha] at hpre; exact absurd hpre (by simp)
    | ok r =>
      rw [ha] at hpre
      cases htl : execAll tl ev with
      | error e => rw [htl] at hpre; exact absurd hpre (by simp)
      | ok rs =>
        rw [htl] at hpre
        simp only [Except.ok.injEq] at hpre
        subst hpre
        simp only [List.cons_append, runActions, ha, List.append_eq]
        rw [ih rs htl]

/-- C1: a raise while processing one rule is caught by the per-rule handler of
process event and becomes a structured error result with success false and
the error message, while every other loaded rule is still processed, one
result per rule, and nothing escapes process event. -/
theorem c1_per_rule_failures_isolated (ev : Ctx) (pre post : List Rule) (r : Rule)
    (msg : String) (h : process_rule r ev = .error msg) :
    process_event (pre ++ r :: post) ev =
      process_event pre ev ++ errorResult r.id msg :: process_event post ev ∧
    (errorResult r.id msg).success = false ∧
    (errorResult r.id msg).error = some msg ∧
    (errorResult r.id msg).actions_executed = [] ∧
    ∀ rules : List Rule, (process_event rules ev).length = rules.length := by
  refine ⟨?_, rfl, rfl, rfl, ?_⟩
  · simp [process_event, h]
  · intro rules
    simp [process_event]

/-- Sample event context used by the concrete witnesses. -/
def sampleCtx : Ctx :=
  [("order", PyVal.dict [("total_price", PyVal.str "150")]),
   ("customer", PyVal.dict [("id", PyVal.str "cust_456")])]

/-- Sample rule whose condition raises: an order total leaf whose condition
value is a non-numeric string. -/
def sampleRaisingRule : Rule :=
  { id := "r_bad", shop_domain := "s1", name := "raising", event_type := "order_created",
    status := RuleStatus.active, priority := 100, created_at := 1,
    conditions := Cond.node [("type", PyVal.str "order_total"), ("value", PyVal.str "xyz")] [],
    actions := [[("type", PyVal.str "tier")]] }

/-- Sample rule that matches every event and runs one stub tier action. -/
def sampleOkRule : Rule :=
  { id := "r_ok", shop_domain := "s1", name := "ok", event_type := "order_created",
    status := RuleStatus.active, priority := 50, created_at := 2,
    conditions := Cond.node [("operator", PyVal.str "and")] [],
    actions := [[("type", PyVal.str "tier")]] }

/-- Second always-matching sample rule. -/
def sampleOkRule2 : Rule :=
  { id := "r_ok2", shop_domain := "s1", name := "ok2", event_type := "order_created",
    status := RuleStatus.active, priority := 50, created_at := 3,
    conditions := Cond.node [("operator", PyVal.str "and")] [],
    actions := [[("type", PyVal.str "badge")]] }

/-- Witness for C1: a rule whose condition evaluation raises is recorded as an
error result between the results of the surrounding rules. -/
theorem c1_witness :
    process_event ([sampleOkRule] ++ sampleRaisingRule :: [sampleOkRule2]) sampleCtx =
      process_event [sampleOkRule] sampleCtx ++
        errorResult sampleRaisingRule.id "ValueError: could not convert string to float: xyz" ::
          process_event [sampleOkRule2] sampleCtx ∧
    (errorResult sampleRaisingRule.id "ValueError: could not convert string to float: xyz").success = false ∧
    (errorResult sampleRaisingRule.id "ValueError: could not convert string to float: xyz").error =
      some "ValueError: could not convert string to float: xyz" ∧
    (errorResult sampleRaisingRule.id "ValueError: could not convert string to float: xyz").actions_executed = [] ∧
    ∀ rules : List Rule, (process_event rules sampleCtx).length = rules.length :=
  c1_per_rule_failures_isolated sampleCtx [sampleOkRule] [sampleOkRule2] sampleRaisingRule
    "ValueError: could not convert string to float: xyz" rfl

/-- C2: when a rule matches and its actions are a succeeding prefix followed
by a raising action, the recorded result holds exactly the results of that
prefix in declared order, success is false, the error field carries the
failing message, and the actions after the failure are not executed (the
result is independent of them). -/
theorem c2_partial_action_prefix (rule : Rule) (ev : Ctx) (pre rest : List Fields)
    (bad : Fields) (results : List PyVal) (msg : String)
    (hacts : rule.actions = pre ++ bad :: rest)
    (hmet : evaluate_conditions rule.conditions ev = .ok true)
    (hpre : execAll pre ev = .ok results)
    (hbad : execute_action bad ev = .error msg) :
    process_rule rule ev = .ok
      { rule_id := rule.id, rule_name := some rule.name, conditions_met := some true,
        actions_executed := results, success := false, error := some msg } := by
  have hrun := runActions_append_error ev pre results bad rest msg hpre hbad
  simp [process_rule, hmet, hacts, hrun, Bind.bind, Except.bind]

/-- Rule for the C2 witness: two declared actions, the second of unknown type,
the third never reached. -/
def samplePartialRule : Rule :=
  { id := "r_part", shop_domain := "s1", name := "partial", event_type := "order_created",
    status := RuleStatus.active, priority := 10, created_at := 4,
    conditions := Cond.node [("operator", PyVal.str "and")] [],
    actions := [[("type", PyVal.str "points"), ("amount", PyVal.int 500)],
                [("type", PyVal.str "mystery")],
                [("type", PyVal.str "tier")]] }

/-- Witness for C2: the first action executes, the unknown second action
raises, the third is skipped, and the result records the one-element prefix
with success false. -/
theorem c2_witness :
    process_rule samplePartialRule sampleCtx = .ok
      { rule_id := "r_part", rule_name := some "partial", conditions_met := some true,
        actions_executed :=
          [PyVal.dict [("type", PyVal.str "points"), ("operation", PyVal.str "add"),
            ("amount", PyVal.int 500), ("customer_id", PyVal.str "cust_456"),
            ("reason", PyVal.str "Rule-based points adjustment"), ("success", PyVal.bool true)]],
        success := false, error := some "Unknown action type: mystery" } :=
  c2_partial_action_prefix samplePartialRule sampleCtx
    [[("type", PyVal.str "points"), ("amount", PyVal.int 500)]]
    [[("type", PyVal.str "tier")]]
    [("type", PyVal.str "mystery")]
    [PyVal.dict [("type", PyVal.str "points"), ("operation", PyVal.str "add"),
      ("amount", PyVal.int 500), ("customer_id", PyVal.str "cust_456"),
      ("reason", PyVal.str "Rule-based points adjustment"), ("success", PyVal.bool true)]]
    "Unknown action type: mystery" rfl rfl rfl rfl

/-- C10: unknown kinds are asymmetric at the engine interface: executing an
action whose type has no registered executor raises a ValueError whose message
names the type, which surfaces as a rule result with success false and that
message after the executed prefix, whereas evaluating a condition whose type
has no registered evaluator silently returns false. -/
theorem c10_unknown_kind_asymmetry (ev : Ctx) :
    (∀ (action : Fields) (t : PyVal),
        pyGetD action "type" .none = t →
        (isStr t "points" || isStr t "tier" || isStr t "badge" || isStr t "webhook" ||
         isStr t "email" || isStr t "discount" || isStr t "tag") = false →
        execute_action action ev = .error ("Unknown action type: " ++ pyToStr t)) ∧
    (∀ (fields : Fields) (t : PyVal),
        pyGetD fields "type" .none = t →
        (isStr t "order_total" || isStr t "order_item_count" || isStr t "product" ||
         isStr t "customer" || isStr t "date" || isStr t "date_range" || isStr t "metafield" ||
         isStr t "tier" || isStr t "points" || isStr t "frequency") = false →
        evaluate_single_condition fields ev = .ok false) ∧
    (∀ (rule : Rule) (pre rest : List Fields) (bad : Fields) (t : PyVal)
        (results : List PyVal),
        rule.actions = pre ++ bad :: rest →
        evaluate_conditions rule.conditions ev = .ok true →
        execAll pre ev = .ok results →
        pyGetD bad "type" .none = t →
        (isStr t "points" || isStr t "tier" || isStr t "badge" || isStr t "webhook" ||
         isStr t "email" || isStr t "discount" || isStr t "tag") = false →
        process_rule rule ev = .ok
          { rule_id := rule.id, rule_name := some rule.name, conditions_met := some true,
            actions_executed := results, success := false,
            error := some ("Unknown action type: " ++ pyToStr t) }) := by
  have hexec : ∀ (action : Fields) (t : PyVal),
      pyGetD action "type" .none = t →
      (isStr t "points" || isStr t "tier" || isStr t "badge" || isStr t "webhook" ||
       isStr t "email" || isStr t "discount" || isStr t "tag") = false →
      execute_action action ev = .error ("Unknown action type: " ++ pyToStr t) := by
    intro action t h1 h2
    simp only [Bool.or_eq_false_iff] at h2
    obtain ⟨⟨⟨⟨⟨⟨h3, h4⟩, h5⟩, h6⟩, h7⟩, h8⟩, h9⟩ := h2
    simp [execute_action, h1, h3, h4, h5, h6, h7, h8, h9]
  refine ⟨hexec, ?_, ?_⟩
  · intro fields t h1 h2
    simp only [Bool.or_eq_false_iff] at h2
    obtain ⟨⟨⟨⟨⟨⟨⟨⟨⟨h3, h4⟩, h5⟩, h6⟩, h7⟩, h8⟩, h9⟩, h10⟩, h11⟩, h12⟩ := h2
    simp [evaluate_single_condition, h1, h3, h4, h5, h6, h7, h8, h9, h10, h11, h12]
  · intro rule pre rest bad t results hacts hmet hpre h1 h2
    exact c2_partial_action_prefix rule ev pre rest bad results
      ("Unknown action type: " ++ pyToStr t) hacts hmet hpre (hexec bad t h1 h2)

/-- Witness for C10: an action of unknown type mystery raises while a
condition of unknown type mystery evaluates to false. -/
theorem c10_witness :
    execute_action [("type", PyVal.str "mystery")] sampleCtx =
      .error "Unknown action type: mystery" ∧
    evaluate_single_condition [("type", PyVal.str "mystery")] sampleCtx = .ok false :=
  ⟨(c10_unknown_kind_asymmetry sampleCtx).1 [("type", PyVal.str "mystery")]
      (PyVal.str "mystery") rfl rfl,
    (c10_unknown_kind_asymmetry sampleCtx).2.1 [("type", PyVal.str "mystery")]
      (PyVal.str "mystery") rfl rfl⟩

end Shopify

-- ============================================================================
-- C5: retry backoff schedule
-- ============================================================================

namespace Shopify

/-- C5: every retry delay has the shape min(cap, base * 2 ^ r): the event
processor uses base 1s with cap 300s on the incremented retry count, and the
webhook delivery task uses base 60s with cap 300s; with base 60 and cap 300
the delays for retry counts 1 through 5 are 120, 240, 300, 300, 300 seconds,
a non-decreasing sequence never exceeding the cap. -/
theorem c5_backoff_schedule :
    (∀ e : LoyaltyEvent, (retry_event e).1.retry_count = e.retry_count + 1 ∧
        (retry_event e).2 = min 300 (1 * 2 ^ (e.retry_count + 1))) ∧
    (∀ r : Nat, webhook_retry_countdown r = min 300 (60 * 2 ^ r)) ∧
    (webhook_retry_countdown 1 = 120 ∧ webhook_retry_countdown 2 = 240 ∧
     webhook_retry_countdown 3 = 300 ∧ webhook_retry_countdown 4 = 300 ∧
     webhook_retry_countdown 5 = 300) ∧
    (∀ r s : Nat, r ≤ s → webhook_retry_countdown r ≤ webhook_retry_countdown s) ∧
    (∀ r : Nat, webhook_retry_countdown r ≤ 300) := by
  refine ⟨?_, ?_, ?_, ?_, ?_⟩
  · intro e
    exact ⟨rfl, by simp [retry_event]⟩
  · intro r
    simp [webhook_retry_countdown, Nat.mul_comm]
  · refine ⟨by decide, by decide, by decide, by decide, by decide⟩
  · intro r s hrs
    have h2 : (2 : Nat) ^ r ≤ 2 ^ s := Nat.pow_le_pow_right (by decide) hrs
    have h3 : (2 : Nat) ^ r * 60 ≤ 2 ^ s * 60 := Nat.mul_le_mul_right 60 h2
    exact min_le_min (Nat.le_refl 300) h3
  · intro r
    exact Nat.min_le_left 300 (2 ^ r * 60)

/-- Witness for C5: retrying an event seen twice schedules it after
min(300, 2 ^ 3) = 8 seconds, and the webhook backoff caps at 300. -/
theorem c5_witness :
    (retry_event { event_id := "e1", retry_count := 2, stream_id := "s1" }).1.retry_count = 3 ∧
    (retry_event { event_id := "e1", retry_count := 2, stream_id := "s1" }).2 =
      min 300 (1 * 2 ^ 3) ∧
    webhook_retry_countdown 2 ≤ webhook_retry_countdown 4 :=
  ⟨(c5_backoff_schedule.1 { event_id := "e1", retry_count := 2, stream_id := "s1" }).1,
    (c5_backoff_schedule.1 { event_id := "e1", retry_count := 2, stream_id := "s1" }).2,
    c5_backoff_schedule.2.2.2.1 2 4 (by decide)⟩

end Shopify

-- ============================================================================
-- C6: rule validation (corrected)
-- ============================================================================

namespace Shopify

/-- Rule input with a priority of 2000 but otherwise valid content, used to
refute the warning-only reading of the priority check. -/
def highPriorityInput : RuleInput :=
  { name := some "High", event_type := some "order_created", priority := some 2000,
    conditions := some (Cond.node [("operator", PyVal.str "and")] []),
    actions := some [[("type", PyVal.str "points"), ("amount", PyVal.int 500)]] }

/-- Counterexample to C6: a rule definition whose priority is 2000 (outside
[1,1000]) is rejected as invalid by validate rule — the pydantic field
constraint raises before the warning branch, so the result is invalid and
carries no warning at all. -/
theorem c6_counterexample :
    (validate_rule highPriorityInput).valid = false ∧
    (validate_rule highPriorityInput).warnings = [] ∧
    (validate_rule highPriorityInput).errors =
      ["Schema validation error: priority: Input should be less than or equal to 1000"] :=
  ⟨rfl, rfl, rfl⟩

/-- C6 amended: validation returns invalid (a hard error) when the action
list is empty; a priority outside [1,1000] also makes the result invalid,
because the pydantic field constraint ge 1, le 1000 raises a schema
validation error before the warning branch can run — that branch is dead
code and the warning list of every validation result is empty. -/
theorem c6_amended (d : RuleInput) :
    (∀ s : RuleSchemaParsed, ruleSchemaInit d = .ok s → s.actions.isEmpty = true →
        (validate_rule d).valid = false ∧
        "Rule must have at least one action" ∈ (validate_rule d).errors) ∧
    (∀ p : Int, d.priority = some p → (p < 1 ∨ p > 1000) →
        (validate_rule d).valid = false ∧ (validate_rule d).warnings = []) ∧
    (∀ s : RuleSchemaParsed, ruleSchemaInit d = .ok s →
        1 ≤ s.priority ∧ s.priority ≤ 1000) ∧
    (validate_rule d).warnings = [] := by
  have hbounds : ∀ s : RuleSchemaParsed, ruleSchemaInit d = .ok s →
      1 ≤ s.priority ∧ s.priority ≤ 1000 := by
    intro s hs
    unfold ruleSchemaInit at hs
    cases hn : d.name with
    | none => rw [hn] at hs; exact absurd hs (by simp)
    | some nm =>
      rw [hn] at hs
      by_cases h1 : nm.length < 1
      · simp [h1] at hs
      · simp only [h1, if_false] at hs
        by_cases h2 : nm.length > 255
        · simp [h2] at hs
        · simp only [h2, if_false] at hs
          cases he : d.event_type with
          | none => rw [he] at hs; exact absurd hs (by simp)
          | some et =>
            rw [he] at hs
            by_cases h3 : d.priority.getD 100 < 1
            · simp [h3] at hs
            · simp only [h3, if_false] at hs
              by_cases h4 : d.priority.getD 100 > 1000
              · simp [h4] at hs
              · simp only [h4, if_false] at hs
                cases hc : d.conditions with
                | none => rw [hc] at hs; exact absurd hs (by simp)
                | some cond =>
                  rw [hc] at hs
                  cases ha : d.actions with
                  | none => rw [ha] at hs; exact absurd hs (by simp)
                  | some acts =>
                    rw [ha] at hs
                    simp only [Except.ok.injEq] at hs
                    subst hs
                    exact ⟨by dsimp only; omega, by dsimp only; omega⟩
  have hwarn : (validate_rule d).warnings = [] := by
    unfold validate_rule
    cases hs : ruleSchemaInit d with
    | error e => simp
    | ok s =>
      have ⟨hb1, hb2⟩ := hbounds s hs
      have : (s.priority < 1 || s.priority > 1000) = false := by
        simp only [Bool.or_eq_false_iff, decide_eq_false_iff_not]
        omega
      simp [this]
  refine ⟨?_, ?_, hbounds, hwarn⟩
  · intro s hs hempty
    unfold validate_rule
    rw [hs]
    simp [hempty]
  · intro p hp hrange
    constructor
    · unfold validate_rule
      cases hs : ruleSchemaInit d with
      | error e => simp
      | ok s =>
        have ⟨hb1, hb2⟩ := hbounds s hs
        exfalso
        unfold ruleSchemaInit at hs
        cases hn : d.name with
        | none => rw [hn] at hs; exact absurd hs (by simp)
        | some nm =>
          rw [hn] at hs
          by_cases h1 : nm.length < 1
          · simp [h1] at hs
          · simp only [h1, if_false] at hs
            by_cases h2 : nm.length > 255
            · simp [h2] at hs
            · simp only [h2, if_false] at hs
              cases he : d.event_type with
              | none => rw [he] at hs; exact absurd hs (by simp)
              | some et =>
                rw [he] at hs
                rw [hp] at hs
                simp only [Option.getD_some] at hs
                by_cases h3 : p < 1
                · simp [h3] at hs
                · simp only [h3, if_false] at hs
                  by_cases h4 : p > 1000
                  · simp [h4] at hs
                  · omega
    · exact hwarn

/-- Rule input that is valid apart from an empty action list. -/
def noActionsInput : RuleInput :=
  { name := some "NoActions"
    event_type := some "order_created"
    priority := some 100
    conditions := some (Cond.node [("operator", PyVal.str "and")] [])
    actions := some [] }

/-- Parsed form of the empty-actions rule input. -/
def noActionsParsed : RuleSchemaParsed :=
  { name := "NoActions"
    event_type := "order_created"
    priority := 100
    conditions := Cond.node [("operator", PyVal.str "and")] []
    actions := [] }

/-- Witness for C6 amended: an otherwise valid rule with an empty action list
is invalid with the dedicated error, and its warning list is empty. -/
theorem c6_witness :
    (validate_rule noActionsInput).valid = false ∧
    "Rule must have at least one action" ∈ (validate_rule noActionsInput).errors :=
  (c6_amended noActionsInput).1 noActionsParsed rfl rfl

end Shopify

-- ============================================================================
-- C7: rule status machine (corrected)
-- ============================================================================

namespace Shopify

/-- Archived rule used to refute the terminality of the archived status. -/
def archivedSample : Rule :=
  { id := "r_arch", shop_domain := "s1", name := "archived", event_type := "order_created",
    status := RuleStatus.archived, priority := 100, created_at := 5,
    conditions := Cond.node [("operator", PyVal.str "and")] [],
    actions := [[("type", PyVal.str "tier")]] }

/-- Counterexample to C7: activate rule has no status guard, so it moves an
archived rule straight back to active — archived is not terminal. -/
theorem c7_counterexample :
    archivedSample.status = RuleStatus.archived ∧
    (activate_rule archivedSample).status = RuleStatus.active ∧
    (deactivate_rule archivedSample).status = RuleStatus.paused :=
  ⟨rfl, rfl, rfl⟩

/-- C7 amended: delete is always a status transition to archived (never a
physical removal, the row is returned), create starts rules in draft, update
never changes the status; but archived is not enforced as terminal: activate
and deactivate overwrite any current status, including archived. -/
theorem c7_amended (r : Rule) :
    (delete_rule r).1.status = RuleStatus.archived ∧
    (delete_rule r).2 = true ∧
    (delete_rule r).1.id = r.id ∧
    (∀ (d : RuleInput) (r2 : Rule), update_rule r d = .ok r2 → r2.status = r.status) ∧
    (∀ (shop : String) (d : RuleInput) (newId : String) (now : Nat) (r2 : Rule),
        create_rule shop d newId now = .ok r2 → r2.status = RuleStatus.draft) ∧
    (activate_rule r).status = RuleStatus.active ∧
    (deactivate_rule r).status = RuleStatus.paused := by
  refine ⟨rfl, rfl, rfl, ?_, ?_, rfl, rfl⟩
  · intro d r2 h
    unfold update_rule at h
    cases hs : ruleSchemaInit d with
    | error e => rw [hs] at h; exact absurd h (by simp)
    | ok s =>
      rw [hs] at h
      by_cases hempty : s.actions.isEmpty
      · simp [hempty] at h
      · simp only [hempty, Bool.false_eq_true, if_false, Except.ok.injEq] at h
        subst h
        rfl
  · intro shop d newId now r2 h
    unfold create_rule at h
    cases hs : ruleSchemaInit d with
    | error e => rw [hs] at h; exact absurd h (by simp)
    | ok s =>
      rw [hs] at h
      by_cases hempty : s.actions.isEmpty
      · simp [hempty] at h
      · simp only [hempty, Bool.false_eq_true, if_false, Except.ok.injEq] at h
        subst h
        rfl

/-- Rule input with valid content used to exercise update on an archived rule. -/
def validUpdateInput : RuleInput :=
  { name := some "Valid"
    event_type := some "order_created"
    priority := some 100
    conditions := some (Cond.node [("operator", PyVal.str "and")] [])
    actions := some [[("type", PyVal.str "tier")]] }

/-- Concrete result of updating the archived sample rule with valid content. -/
def updatedArchivedSample : Rule :=
  { id := "r_arch"
    shop_domain := "s1"
    name := "Valid"
    event_type := "order_created"
    status := RuleStatus.archived
    priority := 100
    created_at := 5
    conditions := Cond.node [("operator", PyVal.str "and")] []
    actions := [[("type", PyVal.str "tier")]] }

/-- Witness for C7 amended: deleting the sample archived rule keeps the row
and marks it archived, and an update with valid content leaves the archived
status in place. -/
theorem c7_witness :
    (delete_rule archivedSample).1.status = RuleStatus.archived ∧
    (delete_rule archivedSample).2 = true ∧
    updatedArchivedSample.status = archivedSample.status :=
  ⟨(c7_amended archivedSample).1, (c7_amended archivedSample).2.1,
    (c7_amended archivedSample).2.2.2.1 validUpdateInput updatedArchivedSample rfl⟩

end Shopify

-- ============================================================================
-- C9: exhausted retries are acknowledged and logged
-- ============================================================================

namespace Shopify

/-- C9: when processing an event raises and its retry count has reached its
max retries, the processor acknowledges the event (its stream id leaves the
pending set), schedules no retry, and logs the event id as a terminal
failure; a batch containing only that event behaves identically. -/
theorem c9_exhausted_retries (outcome : LoyaltyEvent → Except String Unit)
    (e : LoyaltyEvent) (pending : List String) (msg : String)
    (hout : outcome e = .error msg)
    (hmax : e.max_retries ≤ e.retry_count) :
    process_one_event (outcome e) e pending =
      (pending.erase e.stream_id, Option.none, [e.event_id]) ∧
    process_event_batch outcome [e] pending =
      (pending.erase e.stream_id, [], [e.event_id]) := by
  have hlt : ¬ e.retry_count < e.max_retries := by omega
  have h1 : process_one_event (outcome e) e pending =
      (pending.erase e.stream_id, Option.none, [e.event_id]) := by
    rw [hout]
    simp [process_one_event, hlt]
  refine ⟨h1, ?_⟩
  simp [process_event_batch, h1]

/-- Witness for C9: a poison event at its retry budget of 3 is acknowledged
and logged, not rescheduled. -/
theorem c9_witness :
    process_one_event (Except.error "boom")
      { event_id := "e_poison", retry_count := 3, stream_id := "s9" } ["s9", "s2"] =
      (["s2"], Option.none, ["e_poison"]) ∧
    process_event_batch (fun _ => Except.error "boom")
      [{ event_id := "e_poison", retry_count := 3, stream_id := "s9" }] ["s9", "s2"] =
      (["s2"], [], ["e_poison"]) :=
  c9_exhausted_retries (fun _ => Except.error "boom")
    { event_id := "e_poison", retry_count := 3, stream_id := "s9" } ["s9", "s2"]
    "boom" rfl (by decide)

end Shopify

-- ============================================================================
-- C8: deterministic rule loading order
-- ============================================================================

namespace Shopify

/-- A successful process rule result carries the id of the processed rule. -/
theorem process_rule_rule_id (rule : Rule) (ev : Ctx) (r : RuleResult)
    (h : process_rule rule ev = .ok r) : r.rule_id = rule.id := by
  unfold process_rule at h
  cases hm : evaluate_conditions rule.conditions ev with
  | error e => rw [hm] at h; exact absurd h (by simp [Bind.bind, Except.bind])
  | ok met =>
    rw [hm] at h
    simp only [Bind.bind, Except.bind, Except.ok.injEq] at h
    subst h
    rfl

/-- The results of process event list the processed rule ids in order. -/
theorem process_event_ids (rules : List Rule) (ev : Ctx) :
    (process_event rules ev).map RuleResult.rule_id = rules.map Rule.id := by
  induction rules with
  | nil => rfl
  | cons r rs ih =>
    simp only [process_event, List.map_cons] at ih ⊢
    congr 1
    cases hr : process_rule r ev with
    | ok res => exact process_rule_rule_id r ev res hr
    | error msg => rfl

/-- The composite order on rules is transitive. -/
theorem ruleLE_trans (a b c : Rule) (h1 : ruleLE a b = true) (h2 : ruleLE b c = true) :
    ruleLE a c = true := by
  simp only [ruleLE, Bool.or_eq_true, Bool.and_eq_true, decide_eq_true_eq, beq_iff_eq]
    at h1 h2 ⊢
  omega

/-- The composite order on rules is total. -/
theorem ruleLE_total (a b : Rule) : (ruleLE a b || ruleLE b a) = true := by
  simp only [ruleLE, Bool.or_eq_true, Bool.and_eq_true, decide_eq_true_eq, beq_iff_eq]
  omega

/-- C8: rule loading is a pure function of the store, the tenant and the
event type, so two calls with the same inputs return the same list; the list
is sorted ascending in the lexicographic (priority, created at) order and
contains exactly the active rules of that tenant and event type; and process
event reports results in exactly that rule order. -/
theorem c8_deterministic_rule_order (store : List Rule) (shop et : String) (ev : Ctx) :
    load_active_rules store shop et = load_active_rules store shop et ∧
    List.Pairwise (fun a b => ruleLE a b = true) (load_active_rules store shop et) ∧
    (∀ r : Rule, r ∈ load_active_rules store shop et ↔
        r ∈ store ∧ r.shop_domain = shop ∧ r.event_type = et ∧
          r.status = RuleStatus.active) ∧
    (process_event (load_active_rules store shop et) ev).map RuleResult.rule_id =
      (load_active_rules store shop et).map Rule.id := by
  refine ⟨rfl, ?_, ?_, process_event_ids _ ev⟩
  · unfold load_active_rules
    exact List.sorted_mergeSort ruleLE_trans ruleLE_total _
  · intro r
    unfold load_active_rules
    simp [List.mem_mergeSort, List.mem_filter, Bool.and_eq_true, beq_iff_eq, and_assoc]

/-- Witness for C8: on a concrete two-rule store the matching active rule is
loaded, obtained through the membership characterisation of the theorem at a
concrete input. -/
theorem c8_witness :
    sampleOkRule ∈ load_active_rules [sampleRaisingRule, sampleOkRule] "s1" "order_created" :=
  ((c8_deterministic_rule_order [sampleRaisingRule, sampleOkRule] "s1" "order_created"
      sampleCtx).2.2.1 sampleOkRule).mpr ⟨by simp, rfl, rfl, rfl⟩

end Shopify
